import Mathlib

/-!
Shallow embedding of `getyotd.py`: the Fetcher (`get_calendar`) and the
Launcher (`open_calendar`).  External collaborators (HTTP client, HTML
parser, browser registry) are modelled as oracles passed in explicitly;
the current date is injected as a parameter; the filesystem is a map from
path strings to optional byte contents.  Directory creation
(`dir.mkdir(exist_ok=True, parents=True)`) is excluded from the model, as
the spec places it out of scope.
-/

/-- Byte strings: file contents and HTTP bodies. -/
abbrev Bytes := List Nat

/-- A parsed HTML anchor element: visible text and optional `href`
attribute (`a['href']` raises `KeyError` in Python when absent). -/
structure Anchor where
  text : String
  href : Option String
  deriving DecidableEq, Repr

/-- An HTTP response: status code and body bytes. -/
structure HttpResponse where
  status : Nat
  body : Bytes
  deriving DecidableEq, Repr

/-- The injected "today": year and month (0 = January … 11 = December). -/
structure Date where
  year : Nat
  month : Fin 12
  deriving DecidableEq, Repr

/-- Full month names as produced by `strftime('%B')`. -/
def monthNames : List String :=
  ["January", "February", "March", "April", "May", "June",
   "July", "August", "September", "October", "November", "December"]

/-- `%B` for a month index. -/
def monthName (m : Fin 12) : String := monthNames.getD m.val ""

/-- ASCII lower-casing of one character, modelling Python `str.lower`
on the ASCII range used here. -/
def lowerChar (c : Char) : Char :=
  if 65 ≤ c.toNat ∧ c.toNat ≤ 90 then Char.ofNat (c.toNat + 32) else c

/-- Python `str.lower()`. -/
def strLower (s : String) : String := ⟨s.data.map lowerChar⟩

/-- Substring containment over character lists (Python `needle in hay`). -/
def containsSub : List Char → List Char → Bool
  | [], needle => needle.isEmpty
  | h :: t, needle => needle.isPrefixOf (h :: t) || containsSub t needle

/-- Python `needle in hay` on strings: substring match, not equality. -/
def strIn (needle hay : String) : Bool := containsSub hay.data needle.data

/-- `strftime('%Y%B')` for the injected date. -/
def dateFmt (d : Date) : String := Nat.repr d.year ++ monthName d.month

/-- The cache key: `str(datetime.today().strftime('%Y%B')).lower()`. -/
def cacheKey (d : Date) : String := strLower (dateFmt d)

/-- The cache file's base name: cache key plus `'.pdf'`. -/
def cacheFileName (d : Date) : String := cacheKey d ++ ".pdf"

/-- The full cached-artifact path `dir / (key + '.pdf')`. -/
def filePathOf (dir : String) (d : Date) : String :=
  dir ++ "/" ++ cacheFileName d

/-- Filesystem state: maps a path to its contents when the file exists. -/
abbrev FS := String → Option Bytes

/-- The empty filesystem. -/
def emptyFS : FS := fun _ => none

/-- `file.unlink()`. -/
def fsDelete (fs : FS) (p : String) : FS :=
  fun q => if q = p then none else fs q

/-- `open(file, 'wb')` followed by `f.write(body)`: full overwrite. -/
def fsWrite (fs : FS) (p : String) (b : Bytes) : FS :=
  fun q => if q = p then some b else fs q

/-- The filesystem after the forced-refresh step:
`if force_dl and file.exists(): file.unlink()`. -/
def fsAfterForce (force_dl : Bool) (fs : FS) (file : String) : FS :=
  if force_dl ∧ (fs file).isSome then fsDelete fs file else fs

/-- Python truthiness test `not page_url`: `None` and `""` are falsy. -/
def pyFalsy : Option String → Bool
  | none => true
  | some s => s.data.isEmpty

/-- External collaborators of the Fetcher: the HTTP client
(`requests.get`) and the HTML parser (`BeautifulSoup` + `find_all('a')`,
viewed as body bytes ↦ list of anchors). -/
structure FetchEnv where
  http : String → HttpResponse
  parse : Bytes → List Anchor

/-- The failure conditions `get_calendar` can raise, one constructor per
`raise` site (plus the unhandled `KeyError` from `a['href']`). -/
inductive FetchErr where
  | noPageURL
  | pageFetchFailed (url : String) (status : Nat)
  | keyError
  | noDownloadLinks
  | multipleDownloadLinks
  | pdfFetchFailed (url : String) (status : Nat)
  deriving DecidableEq, Repr

/-- The fixed anchor-text marker searched for on the page. -/
def search_str : String := "Click here to Download the Free PDF"

/-- The diagnostic message attached to each failure, mirroring the
Python exception messages. -/
def FetchErr.message : FetchErr → String
  | .noPageURL => "No page URL provided."
  | .pageFetchFailed url s =>
      "Failed to retrieve calendar from '" ++ url ++ "'\nStatus code: " ++ Nat.repr s
  | .keyError => "KeyError: 'href'"
  | .noDownloadLinks =>
      "No download links found for search string '" ++ search_str ++ "'"
  | .multipleDownloadLinks =>
      "Multiple download links found for search string '" ++ search_str ++ "'"
  | .pdfFetchFailed url s =>
      "Failed to download PDF from '" ++ url ++ "'\nStatus code: " ++ Nat.repr s

/-- The list comprehension `[a['href'] for a in links if search_str in
a.text]`: left-to-right, raising `KeyError` (modelled as `.error ()`) at
the first matching anchor with no `href`. -/
def dlLinksOf : List Anchor → Except Unit (List String)
  | [] => .ok []
  | a :: rest =>
    if strIn search_str a.text then
      match a.href with
      | none => .error ()
      | some h => (dlLinksOf rest).map (h :: ·)
    else dlLinksOf rest

/-- The observable outcome of one `get_calendar` call: the returned path
or raised error, the final filesystem, and the URLs fetched in order. -/
structure FetchOutcome where
  result : Except FetchErr String
  fs : FS
  requests : List String

/-- Shallow embedding of `get_calendar(dir, page_url, force_dl)`,
with the current date and the external collaborators made explicit. -/
def get_calendar (dir : String) (page_url : Option String)
    (force_dl : Bool) (today : Date) (env : FetchEnv) (fs : FS) :
    FetchOutcome :=
  let file := filePathOf dir today
  let fs1 := fsAfterForce force_dl fs file
  if (fs1 file).isSome then
    ⟨.ok file, fs1, []⟩
  else if pyFalsy page_url then
    ⟨.error .noPageURL, fs1, []⟩
  else
    let url := page_url.getD ""
    let response := env.http url
    if response.status ≠ 200 then
      ⟨.error (.pageFetchFailed url response.status), fs1, [url]⟩
    else
      match dlLinksOf (env.parse response.body) with
      | .error _ => ⟨.error .keyError, fs1, [url]⟩
      | .ok dls =>
        if dls.isEmpty then
          ⟨.error .noDownloadLinks, fs1, [url]⟩
        else if dls.length ≠ 1 then
          ⟨.error .multipleDownloadLinks, fs1, [url]⟩
        else
          let pdf_url := dls.headD ""
          let pdf_response := env.http pdf_url
          if pdf_response.status ≠ 200 then
            ⟨.error (.pdfFetchFailed pdf_url pdf_response.status), fs1, [url, pdf_url]⟩
          else
            ⟨.ok file, fsWrite fs1 file pdf_response.body, [url, pdf_url]⟩

/-- External collaborators of the Launcher: `webbrowser.get` (viewed as
an optional browser identifier), `Path.resolve`, and
`browser.open_new` (which may raise `webbrowser.Error`). -/
structure LaunchEnv where
  getBrowser : Option String → Option String
  resolve : String → String
  openNew : String → String → Except String Unit

/-- The failure conditions `open_calendar` can raise. -/
inductive LaunchErr where
  | fileNotFound (path : String)
  | noBrowser (name : Option String)
  | browserErr (msg : String)
  deriving DecidableEq, Repr

/-- The observable outcome of one `open_calendar` call: success or
raised error, plus the open requests issued to the browser. -/
structure LaunchOutcome where
  result : Except LaunchErr Unit
  opened : List String

/-- Shallow embedding of `open_calendar(file, using)`. -/
def open_calendar (file : String) (usingName : Option String)
    (env : LaunchEnv) (fs : FS) : LaunchOutcome :=
  if (fs file).isNone then
    ⟨.error (.fileNotFound file), []⟩
  else
    match env.getBrowser usingName with
    | none => ⟨.error (.noBrowser usingName), []⟩
    | some b =>
      let target := "file://" ++ env.resolve file
      match env.openNew b target with
      | .ok _ => ⟨.ok (), [target]⟩
      | .error m => ⟨.error (.browserErr m), [target]⟩

/-- Decimal digit characters of `n`, most significant first: a
structural restatement of `Nat.toDigitsCore` used to reason about
`Nat.repr` (the `%Y` part of the cache key). -/
def natDigs (n : Nat) : List Char :=
  if n < 10 then [Nat.digitChar n]
  else natDigs (n / 10) ++ [Nat.digitChar (n % 10)]
decreasing_by exact Nat.div_lt_self (by omega) (by omega)

/-- `c` is an ASCII decimal digit. -/
def isDigCh (c : Char) : Prop := 48 ≤ c.toNat ∧ c.toNat ≤ 57

/-- Decode a decimal digit string back to a number. -/
def decDigs (l : List Char) : Nat :=
  l.foldl (fun a c => 10 * a + (c.toNat - 48)) 0

/-- A stub environment whose page fetch always fails: used where the
network must not be consulted. -/
def envStub : FetchEnv := ⟨fun _ => ⟨404, []⟩, fun _ => []⟩

/-- An anchor whose text strictly contains the marker (substring, not
equality) and carries an `href`. -/
def pageAnchor : Anchor :=
  ⟨"Please Click here to Download the Free PDF now", some "cal.pdf"⟩

/-- A happy-path environment: page `"u"` yields one matching anchor
pointing at `"cal.pdf"`, whose fetch returns the bytes of `%PDF`. -/
def env2 : FetchEnv :=
  ⟨fun u =>
      if u = "u" then ⟨200, [0]⟩
      else if u = "cal.pdf" then ⟨200, [37, 80, 68, 70]⟩
      else ⟨404, []⟩,
   fun b => if b = [0] then [pageAnchor] else []⟩

/-- An environment answering every request with HTTP 204 (a success
status that is not 200). -/
def env204 : FetchEnv := ⟨fun _ => ⟨204, []⟩, fun _ => []⟩

/-- An environment whose page contains exactly one matching anchor with
no `href` attribute. -/
def env9 : FetchEnv := ⟨fun _ => ⟨200, []⟩, fun _ => [⟨search_str, none⟩]⟩

/-- An environment whose page fetch succeeds but contains no anchors. -/
def env0 : FetchEnv := ⟨fun _ => ⟨200, []⟩, fun _ => []⟩

/-- An environment whose page contains two matching anchors. -/
def env4 : FetchEnv :=
  ⟨fun _ => ⟨200, []⟩,
   fun _ => [⟨search_str, some "a.pdf"⟩, ⟨"xx" ++ search_str, some "b.pdf"⟩]⟩

/-- A stub launcher environment: a resolvable browser whose open
request succeeds. -/
def lenvStub : LaunchEnv :=
  ⟨fun _ => some "firefox", fun p => "/abs/" ++ p, fun _ _ => .ok ()⟩

theorem data_append (s t : String) : (s ++ t).data = s.data ++ t.data := by
  cases s; cases t; rfl

theorem digitChar_facts :
    ∀ m : Fin 10, (Nat.digitChar m.val).toNat - 48 = m.val ∧
      48 ≤ (Nat.digitChar m.val).toNat ∧ (Nat.digitChar m.val).toNat ≤ 57 := by
  decide

theorem toDigitsCore_eq_natDigs :
    ∀ (f n : Nat) (acc : List Char), n < f →
      Nat.toDigitsCore 10 f n acc = natDigs n ++ acc := by
  intro f
  induction f with
  | zero => intro n acc h; omega
  | succ f ih =>
    intro n acc h
    by_cases h10 : n / 10 = 0
    · have hlt : n < 10 := by omega
      simp only [Nat.toDigitsCore, h10, if_pos rfl, reduceIte]
      rw [natDigs]
      simp [hlt, Nat.mod_eq_of_lt hlt]
    · have h1 : n / 10 < f := by omega
      simp only [Nat.toDigitsCore, h10, reduceIte]
      rw [ih (n / 10) _ h1]
      conv_rhs => rw [natDigs]
      have hge : ¬ n < 10 := by omega
      simp [hge]

theorem repr_data_eq_natDigs (n : Nat) : (Nat.repr n).data = natDigs n := by
  show (Nat.toDigits 10 n).asString.data = natDigs n
  unfold Nat.toDigits
  rw [toDigitsCore_eq_natDigs (n + 1) n [] (by omega)]
  simp [List.asString]

theorem decDigs_aux (n : Nat) :
    ∀ a : Nat, (natDigs n).foldl (fun a c => 10 * a + (c.toNat - 48)) a
      = a * 10 ^ (natDigs n).length + n := by
  induction n using Nat.strong_induction_on with
  | _ n ih =>
    intro a
    by_cases hlt : n < 10
    · rw [natDigs]
      simp only [hlt, reduceIte, List.foldl_cons, List.foldl_nil, List.length_singleton]
      have := (digitChar_facts ⟨n, hlt⟩).1
      simp only [this]
      ring
    · rw [natDigs]
      simp only [hlt, reduceIte]
      rw [List.foldl_append]
      have hdiv : n / 10 < n := Nat.div_lt_self (by omega) (by omega)
      rw [ih (n / 10) hdiv a]
      simp only [List.foldl_cons, List.foldl_nil, List.length_append, List.length_singleton]
      have hm : (Nat.digitChar (n % 10)).toNat - 48 = n % 10 :=
        (digitChar_facts ⟨n % 10, by omega⟩).1
      rw [hm]
      have hdm : 10 * (n / 10) + n % 10 = n := by omega
      calc 10 * (a * 10 ^ (natDigs (n / 10)).length + n / 10) + n % 10
          = a * 10 ^ ((natDigs (n / 10)).length + 1) + (10 * (n / 10) + n % 10) := by ring
        _ = a * 10 ^ ((natDigs (n / 10)).length + 1) + n := by rw [hdm]

theorem decDigs_natDigs (n : Nat) : decDigs (natDigs n) = n := by
  unfold decDigs
  rw [decDigs_aux n 0]
  simp

theorem natDigs_inj {m n : Nat} (h : natDigs m = natDigs n) : m = n := by
  have := congrArg decDigs h
  rwa [decDigs_natDigs, decDigs_natDigs] at this

theorem natDigs_isDigit (n : Nat) : ∀ c ∈ natDigs n, isDigCh c := by
  induction n using Nat.strong_induction_on with
  | _ n ih =>
    by_cases hlt : n < 10
    · rw [natDigs]; simp only [hlt, reduceIte, List.mem_singleton]
      rintro c rfl
      exact (digitChar_facts ⟨n, hlt⟩).2
    · rw [natDigs]; simp only [hlt, reduceIte, List.mem_append, List.mem_singleton]
      rintro c (hc | rfl)
      · exact ih (n / 10) (Nat.div_lt_self (by omega) (by omega)) c hc
      · exact (digitChar_facts ⟨n % 10, by omega⟩).2

theorem lowerChar_digit {c : Char} (h : isDigCh c) : lowerChar c = c := by
  unfold lowerChar
  rw [if_neg]
  obtain ⟨h1, h2⟩ := h
  omega

theorem append_inj_digits :
    ∀ (a1 a2 b1 b2 : List Char),
      (∀ c ∈ a1, isDigCh c) → (∀ c ∈ a2, isDigCh c) →
      (∀ c, b1.head? = some c → ¬ isDigCh c) →
      (∀ c, b2.head? = some c → ¬ isDigCh c) →
      a1 ++ b1 = a2 ++ b2 → a1 = a2 ∧ b1 = b2 := by
  intro a1
  induction a1 with
  | nil =>
    intro a2 b1 b2 _ ha2 hb1 _ heq
    cases a2 with
    | nil => exact ⟨rfl, heq⟩
    | cons c t =>
      exfalso
      simp only [List.nil_append, List.cons_append] at heq
      subst heq
      exact hb1 c rfl (ha2 c (List.mem_cons_self c t))
  | cons c t ih =>
    intro a2 b1 b2 ha1 ha2 hb1 hb2 heq
    cases a2 with
    | nil =>
      exfalso
      simp only [List.cons_append, List.nil_append] at heq
      have hh : b2.head? = some c := by rw [← heq]; rfl
      exact hb2 c hh (ha1 c (List.mem_cons_self c t))
    | cons c2 t2 =>
      simp only [List.cons_append, List.cons.injEq] at heq
      obtain ⟨rfl, heq2⟩ := heq
      have := ih t2 b1 b2 (fun x hx => ha1 x (List.mem_cons_of_mem _ hx))
        (fun x hx => ha2 x (List.mem_cons_of_mem _ hx)) hb1 hb2 heq2
      exact ⟨by rw [this.1], this.2⟩

theorem month_head_bool :
    ∀ m : Fin 12,
      (((monthName m).data.map lowerChar).head?.any
        fun c => 48 ≤ c.toNat && c.toNat ≤ 57) = false ∧
      (monthName m).data.map lowerChar ≠ [] := by decide

theorem monthLower_inj :
    ∀ m1 m2 : Fin 12,
      (monthName m1).data.map lowerChar = (monthName m2).data.map lowerChar →
      m1 = m2 := by decide

theorem month_head_nondig (m : Fin 12) :
    ∀ c, ((monthName m).data.map lowerChar).head? = some c → ¬ isDigCh c := by
  intro c hc hdig
  have h := (month_head_bool m).1
  rw [hc] at h
  simp only [Option.any_some] at h
  obtain ⟨h1, h2⟩ := hdig
  simp [h1, h2] at h

theorem cacheKey_data (d : Date) :
    (cacheKey d).data = natDigs d.year ++ (monthName d.month).data.map lowerChar := by
  show ((dateFmt d).data.map lowerChar) = _
  unfold dateFmt
  rw [data_append, List.map_append, repr_data_eq_natDigs]
  congr 1
  have := natDigs_isDigit d.year
  calc (natDigs d.year).map lowerChar
      = (natDigs d.year).map id := by
        apply List.map_congr_left
        intro c hc
        exact lowerChar_digit (this c hc)
    _ = natDigs d.year := List.map_id _

theorem cacheKey_data_inj {d1 d2 : Date}
    (h : (cacheKey d1).data = (cacheKey d2).data) : d1 = d2 := by
  rw [cacheKey_data, cacheKey_data] at h
  have hmain := append_inj_digits _ _ _ _
    (fun c hc => natDigs_isDigit d1.year c hc)
    (fun c hc => natDigs_isDigit d2.year c hc)
    (month_head_nondig d1.month) (month_head_nondig d2.month) h
  obtain ⟨hy, hm⟩ := hmain
  cases d1; cases d2
  simp only [Date.mk.injEq]
  exact ⟨natDigs_inj hy, monthLower_inj _ _ hm⟩

theorem cacheFileName_inj {d1 d2 : Date}
    (h : cacheFileName d1 = cacheFileName d2) : d1 = d2 := by
  apply cacheKey_data_inj
  have hd := congrArg String.data h
  unfold cacheFileName at hd
  rw [data_append, data_append] at hd
  exact List.append_cancel_right hd


theorem gc_eq_cached {dir : String} {pu : Option String} {force : Bool}
    {today : Date} {env : FetchEnv} {fs : FS}
    (h : ((fsAfterForce force fs (filePathOf dir today)) (filePathOf dir today)).isSome = true) :
    get_calendar dir pu force today env fs
      = ⟨.ok (filePathOf dir today), fsAfterForce force fs (filePathOf dir today), []⟩ := by
  unfold get_calendar
  simp [h]

theorem gc_eq_nourl {dir : String} {pu : Option String} {force : Bool}
    {today : Date} {env : FetchEnv} {fs : FS}
    (h : (fsAfterForce force fs (filePathOf dir today)) (filePathOf dir today) = none)
    (h2 : pyFalsy pu = true) :
    get_calendar dir pu force today env fs
      = ⟨.error .noPageURL, fsAfterForce force fs (filePathOf dir today), []⟩ := by
  unfold get_calendar
  simp [h, h2]

theorem gc_eq_pagefail {dir : String} {pu : Option String} {force : Bool}
    {today : Date} {env : FetchEnv} {fs : FS}
    (h : (fsAfterForce force fs (filePathOf dir today)) (filePathOf dir today) = none)
    (h2 : pyFalsy pu = false)
    (h3 : (env.http (pu.getD "")).status ≠ 200) :
    get_calendar dir pu force today env fs
      = ⟨.error (.pageFetchFailed (pu.getD "") (env.http (pu.getD "")).status),
         fsAfterForce force fs (filePathOf dir today), [pu.getD ""]⟩ := by
  unfold get_calendar
  simp [h, h2, h3]

theorem gc_eq_keyerr {dir : String} {pu : Option String} {force : Bool}
    {today : Date} {env : FetchEnv} {fs : FS}
    (h : (fsAfterForce force fs (filePathOf dir today)) (filePathOf dir today) = none)
    (h2 : pyFalsy pu = false)
    (h3 : (env.http (pu.getD "")).status = 200)
    (h4 : dlLinksOf (env.parse (env.http (pu.getD "")).body) = .error ()) :
    get_calendar dir pu force today env fs
      = ⟨.error .keyError, fsAfterForce force fs (filePathOf dir today), [pu.getD ""]⟩ := by
  unfold get_calendar
  simp [h, h2, h3, h4]

theorem gc_eq_nolinks {dir : String} {pu : Option String} {force : Bool}
    {today : Date} {env : FetchEnv} {fs : FS}
    (h : (fsAfterForce force fs (filePathOf dir today)) (filePathOf dir today) = none)
    (h2 : pyFalsy pu = false)
    (h3 : (env.http (pu.getD "")).status = 200)
    (h4 : dlLinksOf (env.parse (env.http (pu.getD "")).body) = .ok []) :
    get_calendar dir pu force today env fs
      = ⟨.error .noDownloadLinks, fsAfterForce force fs (filePathOf dir today), [pu.getD ""]⟩ := by
  unfold get_calendar
  simp [h, h2, h3, h4]

theorem gc_eq_multilinks {dir : String} {pu : Option String} {force : Bool}
    {today : Date} {env : FetchEnv} {fs : FS} {dls : List String}
    (h : (fsAfterForce force fs (filePathOf dir today)) (filePathOf dir today) = none)
    (h2 : pyFalsy pu = false)
    (h3 : (env.http (pu.getD "")).status = 200)
    (h4 : dlLinksOf (env.parse (env.http (pu.getD "")).body) = .ok dls)
    (h5 : 2 ≤ dls.length) :
    get_calendar dir pu force today env fs
      = ⟨.error .multipleDownloadLinks, fsAfterForce force fs (filePathOf dir today), [pu.getD ""]⟩ := by
  unfold get_calendar
  have hne : dls.isEmpty = false := by
    cases dls with
    | nil => simp at h5
    | cons a t => rfl
  have hlen : dls.length ≠ 1 := by omega
  simp [h, h2, h3, h4, hne, hlen]

theorem gc_eq_pdffail {dir : String} {pu : Option String} {force : Bool}
    {today : Date} {env : FetchEnv} {fs : FS} {link : String}
    (h : (fsAfterForce force fs (filePathOf dir today)) (filePathOf dir today) = none)
    (h2 : pyFalsy pu = false)
    (h3 : (env.http (pu.getD "")).status = 200)
    (h4 : dlLinksOf (env.parse (env.http (pu.getD "")).body) = .ok [link])
    (h5 : (env.http link).status ≠ 200) :
    get_calendar dir pu force today env fs
      = ⟨.error (.pdfFetchFailed link (env.http link).status),
         fsAfterForce force fs (filePathOf dir today), [pu.getD "", link]⟩ := by
  unfold get_calendar
  simp [h, h2, h3, h4, h5]

theorem gc_eq_success {dir : String} {pu : Option String} {force : Bool}
    {today : Date} {env : FetchEnv} {fs : FS} {link : String}
    (h : (fsAfterForce force fs (filePathOf dir today)) (filePathOf dir today) = none)
    (h2 : pyFalsy pu = false)
    (h3 : (env.http (pu.getD "")).status = 200)
    (h4 : dlLinksOf (env.parse (env.http (pu.getD "")).body) = .ok [link])
    (h5 : (env.http link).status = 200) :
    get_calendar dir pu force today env fs
      = ⟨.ok (filePathOf dir today),
         fsWrite (fsAfterForce force fs (filePathOf dir today)) (filePathOf dir today)
           (env.http link).body,
         [pu.getD "", link]⟩ := by
  unfold get_calendar
  simp [h, h2, h3, h4, h5]

theorem fsAfterForce_other {force : Bool} {fs : FS} {file q : String}
    (hq : q ≠ file) : fsAfterForce force fs file q = fs q := by
  unfold fsAfterForce
  split
  · simp [fsDelete, hq]
  · rfl

theorem isSome_false_eq_none {o : Option Bytes}
    (h : ¬ o.isSome = true) : o = none := by
  cases o with
  | none => rfl
  | some b => simp at h

theorem fetch_ok_path {dir : String} {pu : Option String} {force : Bool}
    {today : Date} {env : FetchEnv} {fs : FS} {p : String}
    (h : (get_calendar dir pu force today env fs).result = .ok p) :
    p = filePathOf dir today ∧
    ((get_calendar dir pu force today env fs).fs (filePathOf dir today)).isSome = true := by
  by_cases hc : ((fsAfterForce force fs (filePathOf dir today)) (filePathOf dir today)).isSome = true
  · rw [gc_eq_cached hc] at h ⊢
    simp only [Except.ok.injEq] at h
    exact ⟨h.symm, hc⟩
  · have hcn := isSome_false_eq_none hc
    by_cases h2 : pyFalsy pu = true
    · rw [gc_eq_nourl hcn h2] at h
      simp at h
    · have h2f : pyFalsy pu = false := by
        cases hpy : pyFalsy pu
        · rfl
        · exact absurd hpy h2
      by_cases h3 : (env.http (pu.getD "")).status = 200
      · cases hdl : dlLinksOf (env.parse (env.http (pu.getD "")).body) with
        | error u =>
          cases u
          rw [gc_eq_keyerr hcn h2f h3 hdl] at h
          simp at h
        | ok dls =>
          match dls, hdl with
          | [], hdl =>
            rw [gc_eq_nolinks hcn h2f h3 hdl] at h
            simp at h
          | [link], hdl =>
            by_cases h5 : (env.http link).status = 200
            · rw [gc_eq_success hcn h2f h3 hdl h5] at h ⊢
              simp only [Except.ok.injEq] at h
              refine ⟨h.symm, ?_⟩
              simp [fsWrite]
            · rw [gc_eq_pdffail hcn h2f h3 hdl h5] at h
              simp at h
          | l1 :: l2 :: rest, hdl =>
            rw [gc_eq_multilinks hcn h2f h3 hdl (by simp)] at h
            simp at h
      · rw [gc_eq_pagefail hcn h2f h3] at h
        simp at h

theorem fetch_error_fs {dir : String} {pu : Option String} {force : Bool}
    {today : Date} {env : FetchEnv} {fs : FS} {e : FetchErr}
    (h : (get_calendar dir pu force today env fs).result = .error e) :
    (get_calendar dir pu force today env fs).fs (filePathOf dir today) = none ∧
    (∀ q, q ≠ filePathOf dir today →
      (get_calendar dir pu force today env fs).fs q = fs q) ∧
    (get_calendar dir pu force today env fs).fs
      = fsAfterForce force fs (filePathOf dir today) := by
  by_cases hc : ((fsAfterForce force fs (filePathOf dir today)) (filePathOf dir today)).isSome = true
  · rw [gc_eq_cached hc] at h
    simp at h
  · have hcn := isSome_false_eq_none hc
    have hgoal : (get_calendar dir pu force today env fs).fs
        = fsAfterForce force fs (filePathOf dir today) →
        (get_calendar dir pu force today env fs).fs (filePathOf dir today) = none ∧
        (∀ q, q ≠ filePathOf dir today →
          (get_calendar dir pu force today env fs).fs q = fs q) ∧
        (get_calendar dir pu force today env fs).fs
          = fsAfterForce force fs (filePathOf dir today) := by
      intro hfs
      exact ⟨by rw [hfs, hcn], fun q hq => by rw [hfs]; exact fsAfterForce_other hq, hfs⟩
    apply hgoal
    by_cases h2 : pyFalsy pu = true
    · rw [gc_eq_nourl hcn h2]
    · have h2f : pyFalsy pu = false := by
        cases hpy : pyFalsy pu
        · rfl
        · exact absurd hpy h2
      by_cases h3 : (env.http (pu.getD "")).status = 200
      · cases hdl : dlLinksOf (env.parse (env.http (pu.getD "")).body) with
        | error u =>
          cases u
          rw [gc_eq_keyerr hcn h2f h3 hdl]
        | ok dls =>
          match dls, hdl with
          | [], hdl => rw [gc_eq_nolinks hcn h2f h3 hdl]
          | [link], hdl =>
            by_cases h5 : (env.http link).status = 200
            · rw [gc_eq_success hcn h2f h3 hdl h5] at h
              simp at h
            · rw [gc_eq_pdffail hcn h2f h3 hdl h5]
          | l1 :: l2 :: rest, hdl =>
            rw [gc_eq_multilinks hcn h2f h3 hdl (by simp)]
      · rw [gc_eq_pagefail hcn h2f h3]

theorem fsAfterForce_false {fs : FS} {file : String} :
    fsAfterForce false fs file = fs := by
  simp [fsAfterForce]

theorem fsAfterForce_of_none {force : Bool} {fs : FS} {file : String}
    (h : fs file = none) : fsAfterForce force fs file = fs := by
  simp [fsAfterForce, h]

theorem fsAfterForce_none {force : Bool} {fs : FS} {file : String}
    (h : fs file = none ∨ force = true) :
    fsAfterForce force fs file file = none := by
  rcases h with hn | hf
  · simp [fsAfterForce, hn]
  · subst hf
    by_cases hs : (fs file).isSome = true
    · simp [fsAfterForce, hs, fsDelete]
    · have hn := isSome_false_eq_none hs
      simp [fsAfterForce, hn]

theorem isPrefixOf_self : ∀ l : List Char, l.isPrefixOf l = true := by
  intro l
  induction l with
  | nil => rfl
  | cons c t ih => simp [List.isPrefixOf, ih]

theorem containsSub_self : ∀ n : List Char, containsSub n n = true := by
  intro n
  cases n with
  | nil => rfl
  | cons c t =>
    unfold containsSub
    rw [isPrefixOf_self]
    rfl

theorem containsSub_append : ∀ xs n : List Char, containsSub (xs ++ n) n = true := by
  intro xs n
  induction xs with
  | nil => simpa using containsSub_self n
  | cons c t ih =>
    show (n.isPrefixOf (c :: (t ++ n)) || containsSub (t ++ n) n) = true
    rw [ih]
    simp

theorem message_has_status_page (url : String) (s : Nat) :
    strIn (Nat.repr s) (FetchErr.message (.pageFetchFailed url s)) = true := by
  show containsSub
    ((("Failed to retrieve calendar from '" ++ url ++ "'\nStatus code: ") ++ Nat.repr s).data)
    (Nat.repr s).data = true
  rw [data_append]
  exact containsSub_append _ _

theorem message_has_status_pdf (url : String) (s : Nat) :
    strIn (Nat.repr s) (FetchErr.message (.pdfFetchFailed url s)) = true := by
  show containsSub
    ((("Failed to download PDF from '" ++ url ++ "'\nStatus code: ") ++ Nat.repr s).data)
    (Nat.repr s).data = true
  rw [data_append]
  exact containsSub_append _ _

theorem dlLinksOf_eq_ok {links : List Anchor}
    (h : ∀ a ∈ links, strIn search_str a.text = true → a.href.isSome = true) :
    dlLinksOf links
      = .ok ((links.filter (fun a => strIn search_str a.text)).map
          (fun a => a.href.getD "")) := by
  induction links with
  | nil => rfl
  | cons a t ih =>
    unfold dlLinksOf
    by_cases hm : strIn search_str a.text = true
    · have hs := h a (List.mem_cons_self a t) hm
      cases hh : a.href with
      | none => rw [hh] at hs; simp at hs
      | some l =>
        simp only [hm, reduceIte, hh]
        rw [ih (fun x hx hmx => h x (List.mem_cons_of_mem a hx) hmx)]
        simp [List.filter_cons, hm, hh, Except.map]
    · have hmf : strIn search_str a.text = false := by
        cases hx : strIn search_str a.text
        · rfl
        · exact absurd hx hm
      simp only [hmf, Bool.false_eq_true, reduceIte]
      rw [ih (fun x hx hmx => h x (List.mem_cons_of_mem a hx) hmx)]
      simp [List.filter_cons, hmf]

theorem matching_href_of_filter_single {links : List Anchor} {a : Anchor} {link : String}
    (hfilter : links.filter (fun x => strIn search_str x.text) = [a])
    (ha : a.href = some link) :
    ∀ x ∈ links, strIn search_str x.text = true → x.href.isSome = true := by
  intro x hx hmx
  have hmem : x ∈ links.filter (fun x => strIn search_str x.text) :=
    List.mem_filter.mpr ⟨hx, hmx⟩
  rw [hfilter] at hmem
  have : x = a := by simpa using hmem
  rw [this, ha]
  rfl

/-- C1: with the cached artifact present and forceRefresh false, the
Fetcher returns the artifact's path immediately, issues no network
request and leaves the filesystem unchanged; hence after any successful
call with forceRefresh false, a second identical call returns the same
path and is side-effect-free. -/
theorem C1_cached_idempotent :
    (∀ (dir : String) (pu : Option String) (today : Date) (env : FetchEnv) (fs : FS),
      (fs (filePathOf dir today)).isSome = true →
      get_calendar dir pu false today env fs
        = ⟨.ok (filePathOf dir today), fs, []⟩) ∧
    (∀ (dir : String) (pu : Option String) (today : Date) (env : FetchEnv)
        (fs : FS) (p : String),
      (get_calendar dir pu false today env fs).result = .ok p →
      get_calendar dir pu false today env (get_calendar dir pu false today env fs).fs
        = ⟨.ok p, (get_calendar dir pu false today env fs).fs, []⟩) := by
  have hA : ∀ (dir : String) (pu : Option String) (today : Date) (env : FetchEnv) (fs : FS),
      (fs (filePathOf dir today)).isSome = true →
      get_calendar dir pu false today env fs = ⟨.ok (filePathOf dir today), fs, []⟩ := by
    intro dir pu today env fs h
    have heq := @gc_eq_cached dir pu false today env fs (by rw [fsAfterForce_false]; exact h)
    rwa [fsAfterForce_false] at heq
  refine ⟨hA, ?_⟩
  intro dir pu today env fs p h
  obtain ⟨hp, hsome⟩ := fetch_ok_path h
  subst hp
  exact hA dir pu today env _ hsome

/-- Witness for C1 at a concrete cached state (June 2024). -/
theorem C1_cached_idempotent_witness :
    get_calendar "d" (some "u") false ⟨2024, 5⟩ envStub
        (fsWrite emptyFS "d/2024june.pdf" [37])
      = ⟨.ok (filePathOf "d" ⟨2024, 5⟩), fsWrite emptyFS "d/2024june.pdf" [37], []⟩ :=
  C1_cached_idempotent.1 "d" (some "u") ⟨2024, 5⟩ envStub _ (by decide)

/-- C6: when the artifact is absent (or forceRefresh is set) an empty or
absent pageURL raises the InvalidArgument condition (`ValueError("No
page URL provided.")`); when the artifact exists and forceRefresh is
false, an absent pageURL does not cause a failure. -/
theorem C6_page_url_required :
    (∀ (dir : String) (pu : Option String) (force : Bool) (today : Date)
        (env : FetchEnv) (fs : FS),
      (fs (filePathOf dir today) = none ∨ force = true) →
      pyFalsy pu = true →
      (get_calendar dir pu force today env fs).result = .error .noPageURL) ∧
    (∀ (dir : String) (pu : Option String) (today : Date) (env : FetchEnv) (fs : FS),
      (fs (filePathOf dir today)).isSome = true →
      (get_calendar dir pu false today env fs).result = .ok (filePathOf dir today)) := by
  constructor
  · intro dir pu force today env fs h h2
    rw [gc_eq_nourl (fsAfterForce_none h) h2]
  · intro dir pu today env fs h
    rw [gc_eq_cached (by rw [fsAfterForce_false]; exact h)]

/-- Witness for C6: absent pageURL fails on an empty cache and succeeds
on a warm cache. -/
theorem C6_page_url_required_witness :
    (get_calendar "d" none false ⟨2024, 5⟩ envStub emptyFS).result
      = .error .noPageURL ∧
    (get_calendar "d" none false ⟨2024, 5⟩ envStub
        (fsWrite emptyFS "d/2024june.pdf" [37])).result
      = .ok (filePathOf "d" ⟨2024, 5⟩) :=
  ⟨C6_page_url_required.1 "d" none false ⟨2024, 5⟩ envStub emptyFS (Or.inl rfl) rfl,
   C6_page_url_required.2 "d" none ⟨2024, 5⟩ envStub _ (by decide)⟩

/-- C7: a failing call writes no cached artifact: on any raised error
the artifact path holds no file afterwards and every other path is
untouched. -/
theorem C7_error_no_file_written :
    ∀ (dir : String) (pu : Option String) (force : Bool) (today : Date)
      (env : FetchEnv) (fs : FS) (e : FetchErr),
      (get_calendar dir pu force today env fs).result = .error e →
      (get_calendar dir pu force today env fs).fs (filePathOf dir today) = none ∧
      (∀ q, q ≠ filePathOf dir today →
        (get_calendar dir pu force today env fs).fs q = fs q) := by
  intro dir pu force today env fs e h
  obtain ⟨h1, h2, _⟩ := fetch_error_fs h
  exact ⟨h1, h2⟩

/-- Witness for C7 at a concrete failing call. -/
theorem C7_error_no_file_written_witness :
    (get_calendar "d" none false ⟨2024, 5⟩ envStub emptyFS).fs
        (filePathOf "d" ⟨2024, 5⟩) = none ∧
    (get_calendar "d" none false ⟨2024, 5⟩ envStub emptyFS).fs "other"
      = emptyFS "other" := by
  have h := C7_error_no_file_written "d" none false ⟨2024, 5⟩ envStub emptyFS
    .noPageURL rfl
  exact ⟨h.1, h.2 "other" (by decide)⟩

/-- C10: with forceRefresh true and a cached artifact present, the
artifact is deleted before the pageURL check and before any network
request, and the deletion is not rolled back when the call then fails. -/
theorem C10_force_delete_persists :
    ∀ (dir : String) (pu : Option String) (today : Date) (env : FetchEnv)
      (fs : FS) (b : Bytes),
      fs (filePathOf dir today) = some b →
      (∀ e, (get_calendar dir pu true today env fs).result = .error e →
        (get_calendar dir pu true today env fs).fs (filePathOf dir today) = none) ∧
      (pyFalsy pu = true →
        (get_calendar dir pu true today env fs).result = .error .noPageURL ∧
        (get_calendar dir pu true today env fs).fs (filePathOf dir today) = none ∧
        (get_calendar dir pu true today env fs).requests = []) := by
  intro dir pu today env fs b hb
  have hdel : fsAfterForce true fs (filePathOf dir today) (filePathOf dir today) = none :=
    fsAfterForce_none (Or.inr rfl)
  constructor
  · intro e he
    exact (fetch_error_fs he).1
  · intro hpy
    rw [gc_eq_nourl hdel hpy]
    exact ⟨rfl, hdel, rfl⟩

/-- Witness for C10: a warm cache, forceRefresh true and no pageURL:
the call fails, the artifact is gone, and no request was made. -/
theorem C10_force_delete_persists_witness :
    (get_calendar "d" none true ⟨2024, 5⟩ envStub
        (fsWrite emptyFS "d/2024june.pdf" [37])).result = .error .noPageURL ∧
    (get_calendar "d" none true ⟨2024, 5⟩ envStub
        (fsWrite emptyFS "d/2024june.pdf" [37])).fs
        (filePathOf "d" ⟨2024, 5⟩) = none ∧
    (get_calendar "d" none true ⟨2024, 5⟩ envStub
        (fsWrite emptyFS "d/2024june.pdf" [37])).requests = [] :=
  (C10_force_delete_persists "d" none ⟨2024, 5⟩ envStub _ [37] (by decide)).2 rfl

/-- C2: a successful download returns `targetDir / (cacheKey ++ ".pdf")`
and writes the PDF response body verbatim to that path as a full
overwrite, leaving every other path untouched. -/
theorem C2_download_success :
    ∀ (dir u link : String) (force : Bool) (today : Date) (env : FetchEnv)
      (fs : FS) (a : Anchor),
      fs (filePathOf dir today) = none →
      pyFalsy (some u) = false →
      (env.http u).status = 200 →
      (env.parse (env.http u).body).filter (fun x => strIn search_str x.text) = [a] →
      a.href = some link →
      (env.http link).status = 200 →
      get_calendar dir (some u) force today env fs
        = ⟨.ok (filePathOf dir today),
           fsWrite fs (filePathOf dir today) (env.http link).body,
           [u, link]⟩ := by
  intro dir u link force today env fs a h hpy hs hf ha hps
  have hall := matching_href_of_filter_single hf ha
  have hdl : dlLinksOf (env.parse (env.http u).body) = .ok [link] := by
    rw [dlLinksOf_eq_ok hall, hf]
    simp [ha]
  have hn : fsAfterForce force fs (filePathOf dir today) (filePathOf dir today) = none :=
    fsAfterForce_none (Or.inl h)
  rw [gc_eq_success hn hpy hs hdl hps, fsAfterForce_of_none h]
  rfl

/-- Witness for C2: the June 2024 scenario of the spec, with the path
evaluating to `d/2024june.pdf` and the `%PDF` bytes written. -/
theorem C2_download_success_witness :
    get_calendar "d" (some "u") false ⟨2024, 5⟩ env2 emptyFS
      = ⟨.ok (filePathOf "d" ⟨2024, 5⟩),
         fsWrite emptyFS (filePathOf "d" ⟨2024, 5⟩) [37, 80, 68, 70],
         ["u", "cal.pdf"]⟩ ∧
    filePathOf "d" ⟨2024, 5⟩ = "d/2024june.pdf" :=
  ⟨C2_download_success "d" "u" "cal.pdf" false ⟨2024, 5⟩ env2 emptyFS pageAnchor
      rfl (by decide) rfl (by decide) rfl rfl,
   by decide⟩

/-- C4: anchors are filtered by substring containment of the marker in
their visible text; zero matches raise the NotFound condition, two or
more raise the distinct AmbiguousResult condition, and with exactly one
match its `href` becomes the DownloadLink (the URL of the second GET). -/
theorem C4_link_count_policy :
    ∀ (dir : String) (pu : Option String) (force : Bool) (today : Date)
      (env : FetchEnv) (fs : FS),
      fs (filePathOf dir today) = none →
      pyFalsy pu = false →
      (env.http (pu.getD "")).status = 200 →
      (∀ x ∈ env.parse (env.http (pu.getD "")).body,
        strIn search_str x.text = true → x.href.isSome = true) →
      ((env.parse (env.http (pu.getD "")).body).filter
          (fun x => strIn search_str x.text) = [] →
        (get_calendar dir pu force today env fs).result = .error .noDownloadLinks) ∧
      (2 ≤ ((env.parse (env.http (pu.getD "")).body).filter
          (fun x => strIn search_str x.text)).length →
        (get_calendar dir pu force today env fs).result = .error .multipleDownloadLinks) ∧
      (∀ (a : Anchor) (link : String),
        (env.parse (env.http (pu.getD "")).body).filter
          (fun x => strIn search_str x.text) = [a] →
        a.href = some link →
        (get_calendar dir pu force today env fs).requests = [pu.getD "", link]) ∧
      FetchErr.noDownloadLinks ≠ FetchErr.multipleDownloadLinks := by
  intro dir pu force today env fs h hpy hs hall
  have hn : fsAfterForce force fs (filePathOf dir today) (filePathOf dir today) = none :=
    fsAfterForce_none (Or.inl h)
  have hdl := dlLinksOf_eq_ok hall
  refine ⟨?_, ?_, ?_, by simp⟩
  · intro hf
    rw [hf] at hdl
    simp only [List.map_nil] at hdl
    rw [gc_eq_nolinks hn hpy hs hdl]
  · intro hlen
    have hlen2 : 2 ≤ (((env.parse (env.http (pu.getD "")).body).filter
        (fun x => strIn search_str x.text)).map (fun a => a.href.getD "")).length := by
      rw [List.length_map]
      exact hlen
    rw [gc_eq_multilinks hn hpy hs hdl hlen2]
  · intro a link hf ha
    rw [hf] at hdl
    simp only [List.map_cons, List.map_nil, ha, Option.getD_some] at hdl
    by_cases hps : (env.http link).status = 200
    · rw [gc_eq_success hn hpy hs hdl hps]
    · rw [gc_eq_pdffail hn hpy hs hdl hps]

/-- Witness for C4: zero matches, two matches, and one match (the
latter on an anchor whose text strictly contains the marker). -/
theorem C4_link_count_policy_witness :
    (get_calendar "d" (some "u") false ⟨2024, 5⟩ env0 emptyFS).result
      = .error .noDownloadLinks ∧
    (get_calendar "d" (some "u") false ⟨2024, 5⟩ env4 emptyFS).result
      = .error .multipleDownloadLinks ∧
    (get_calendar "d" (some "u") false ⟨2024, 5⟩ env2 emptyFS).requests
      = ["u", "cal.pdf"] :=
  ⟨(C4_link_count_policy "d" (some "u") false ⟨2024, 5⟩ env0 emptyFS
      rfl (by decide) rfl (by decide)).1 rfl,
   (C4_link_count_policy "d" (some "u") false ⟨2024, 5⟩ env4 emptyFS
      rfl (by decide) rfl (by decide)).2.1 (by decide),
   (C4_link_count_policy "d" (some "u") false ⟨2024, 5⟩ env2 emptyFS
      rfl (by decide) rfl (by decide)).2.2.1 pageAnchor "cal.pdf" (by decide) rfl⟩

/-- C3 (amended): the Fetcher proceeds past a fetch exactly when the
status equals 200; any other status — including other 2xx statuses —
raises the ConnectivityError condition, whose diagnostic message
contains the status code, on both the page fetch and the PDF fetch. -/
theorem C3_status_200_policy :
    ∀ (dir u : String) (force : Bool) (today : Date) (env : FetchEnv) (fs : FS),
      fs (filePathOf dir today) = none →
      pyFalsy (some u) = false →
      ((env.http u).status ≠ 200 →
        (get_calendar dir (some u) force today env fs).result
          = .error (.pageFetchFailed u (env.http u).status) ∧
        strIn (Nat.repr (env.http u).status)
          ((FetchErr.pageFetchFailed u (env.http u).status).message) = true) ∧
      ((env.http u).status = 200 →
        ∀ v s, (get_calendar dir (some u) force today env fs).result
          ≠ .error (.pageFetchFailed v s)) ∧
      (∀ (a : Anchor) (link : String),
        (env.http u).status = 200 →
        (env.parse (env.http u).body).filter (fun x => strIn search_str x.text) = [a] →
        a.href = some link →
        ((env.http link).status ≠ 200 →
          (get_calendar dir (some u) force today env fs).result
            = .error (.pdfFetchFailed link (env.http link).status) ∧
          strIn (Nat.repr (env.http link).status)
            ((FetchErr.pdfFetchFailed link (env.http link).status).message) = true) ∧
        ((env.http link).status = 200 →
          (get_calendar dir (some u) force today env fs).result
            = .ok (filePathOf dir today))) := by
  intro dir u force today env fs h hpy
  have hn : fsAfterForce force fs (filePathOf dir today) (filePathOf dir today) = none :=
    fsAfterForce_none (Or.inl h)
  refine ⟨?_, ?_, ?_⟩
  · intro hs
    rw [gc_eq_pagefail hn hpy hs]
    exact ⟨rfl, message_has_status_page u _⟩
  · intro hs v s
    cases hdl : dlLinksOf (env.parse (env.http u).body) with
    | error e =>
      cases e
      rw [gc_eq_keyerr hn hpy hs hdl]
      simp
    | ok dls =>
      match dls, hdl with
      | [], hdl =>
        rw [gc_eq_nolinks hn hpy hs hdl]
        simp
      | [link], hdl =>
        by_cases hps : (env.http link).status = 200
        · rw [gc_eq_success hn hpy hs hdl hps]
          simp
        · rw [gc_eq_pdffail hn hpy hs hdl hps]
          simp
      | l1 :: l2 :: rest, hdl =>
        rw [gc_eq_multilinks hn hpy hs hdl (by simp)]
        simp
  · intro a link hs hf ha
    have hall := matching_href_of_filter_single hf ha
    have hdl : dlLinksOf (env.parse (env.http u).body) = .ok [link] := by
      rw [dlLinksOf_eq_ok hall, hf]
      simp [ha]
    constructor
    · intro hps
      rw [gc_eq_pdffail hn hpy hs hdl hps]
      exact ⟨rfl, message_has_status_pdf link _⟩
    · intro hps
      rw [gc_eq_success hn hpy hs hdl hps]

/-- Counterexample to C3 as stated: HTTP 204 is a success (2xx) status,
yet the Fetcher does not proceed — it raises the ConnectivityError
condition, because the code tests `status_code != 200`. -/
theorem C3_2xx_counterexample :
    (200 ≤ 204 ∧ 204 < 300) ∧
    (get_calendar "d" (some "u") false ⟨2024, 5⟩ env204 emptyFS).result
      = .error (.pageFetchFailed "u" 204) := by
  refine ⟨by omega, ?_⟩
  rw [@gc_eq_pagefail "d" (some "u") false ⟨2024, 5⟩ env204 emptyFS rfl
    (by decide) (by decide)]
  rfl

/-- Witness for C3 (amended) at concrete failing and succeeding calls. -/
theorem C3_status_200_policy_witness :
    ((get_calendar "d" (some "u") false ⟨2024, 5⟩ env204 emptyFS).result
      = .error (.pageFetchFailed "u" 204) ∧
     strIn (Nat.repr 204) ((FetchErr.pageFetchFailed "u" 204).message) = true) ∧
    (get_calendar "d" (some "u") false ⟨2024, 5⟩ env2 emptyFS).result
      = .ok (filePathOf "d" ⟨2024, 5⟩) :=
  ⟨(C3_status_200_policy "d" "u" false ⟨2024, 5⟩ env204 emptyFS rfl
      (by decide)).1 (by decide),
   ((C3_status_200_policy "d" "u" false ⟨2024, 5⟩ env2 emptyFS rfl
      (by decide)).2.2 pageAnchor "cal.pdf" rfl (by decide) rfl).2 rfl⟩

/-- C5: the cache file name is a deterministic function of the injected
date — the year's digits followed by the lower-cased month name — equal
for two dates in the same calendar month and distinct for two dates in
different calendar months. -/
theorem C5_cache_key_determinism :
    (∀ d1 d2 : Date, d1.year = d2.year → d1.month = d2.month →
      cacheFileName d1 = cacheFileName d2) ∧
    (∀ d1 d2 : Date, d1.year ≠ d2.year ∨ d1.month ≠ d2.month →
      cacheFileName d1 ≠ cacheFileName d2) ∧
    (∀ d : Date, (cacheKey d).data
      = (Nat.repr d.year).data ++ ((monthName d.month).data.map lowerChar)) := by
  refine ⟨?_, ?_, ?_⟩
  · intro d1 d2 hy hm
    cases d1
    cases d2
    simp only at hy hm
    subst hy
    subst hm
    rfl
  · intro d1 d2 hne heq
    have hdd := cacheFileName_inj heq
    subst hdd
    rcases hne with hy | hm
    · exact hy rfl
    · exact hm rfl
  · intro d
    rw [cacheKey_data, repr_data_eq_natDigs]

/-- Witness for C5: June 2024 agrees with itself and differs from both
July 2024 and June 2023. -/
theorem C5_cache_key_determinism_witness :
    cacheFileName ⟨2024, 5⟩ = cacheFileName ⟨2024, 5⟩ ∧
    cacheFileName ⟨2024, 5⟩ ≠ cacheFileName ⟨2024, 6⟩ ∧
    cacheFileName ⟨2023, 5⟩ ≠ cacheFileName ⟨2024, 5⟩ :=
  ⟨C5_cache_key_determinism.1 ⟨2024, 5⟩ ⟨2024, 5⟩ rfl rfl,
   C5_cache_key_determinism.2.1 ⟨2024, 5⟩ ⟨2024, 6⟩ (Or.inr (by decide)),
   C5_cache_key_determinism.2.1 ⟨2023, 5⟩ ⟨2024, 5⟩ (Or.inl (by decide))⟩

/-- C8: the Launcher fails with the NotFound condition when the file
does not exist, with the InvalidArgument condition when no browser
matches the requested name, and otherwise issues exactly one open
request for the resolved `file://` URL and reports only whether that
request succeeded. -/
theorem C8_launcher_policy :
    (∀ (file : String) (u : Option String) (env : LaunchEnv) (fs : FS),
      fs file = none →
      open_calendar file u env fs = ⟨.error (.fileNotFound file), []⟩) ∧
    (∀ (file : String) (u : Option String) (env : LaunchEnv) (fs : FS) (b : Bytes),
      fs file = some b → env.getBrowser u = none →
      open_calendar file u env fs = ⟨.error (.noBrowser u), []⟩) ∧
    (∀ (file : String) (u : Option String) (env : LaunchEnv) (fs : FS) (b : Bytes)
        (br : String),
      fs file = some b → env.getBrowser u = some br →
      (open_calendar file u env fs).opened = ["file://" ++ env.resolve file] ∧
      (env.openNew br ("file://" ++ env.resolve file) = .ok () →
        (open_calendar file u env fs).result = .ok ()) ∧
      (∀ m, env.openNew br ("file://" ++ env.resolve file) = .error m →
        (open_calendar file u env fs).result = .error (.browserErr m))) := by
  refine ⟨?_, ?_, ?_⟩
  · intro file u env fs h
    unfold open_calendar
    simp [h]
  · intro file u env fs b h hb
    unfold open_calendar
    simp [h, hb]
  · intro file u env fs b br h hb
    cases hw : env.openNew br ("file://" ++ env.resolve file) with
    | ok v =>
      cases v
      have he : open_calendar file u env fs
          = ⟨.ok (), ["file://" ++ env.resolve file]⟩ := by
        unfold open_calendar
        simp [h, hb, hw]
      rw [he]
      refine ⟨rfl, fun _ => rfl, fun m hm => ?_⟩
      exact Except.noConfusion hm
    | error m0 =>
      have he : open_calendar file u env fs
          = ⟨.error (.browserErr m0), ["file://" ++ env.resolve file]⟩ := by
        unfold open_calendar
        simp [h, hb, hw]
      rw [he]
      refine ⟨rfl, fun hok => ?_, fun m hm => ?_⟩
      · exact Except.noConfusion hok
      · have hmm : m0 = m := by
          injection hm
        rw [hmm]

/-- Witness for C8: a missing file fails, and a present file with a
resolvable browser issues the resolved open request and succeeds. -/
theorem C8_launcher_policy_witness :
    open_calendar "f.pdf" none lenvStub emptyFS
      = ⟨.error (.fileNotFound "f.pdf"), []⟩ ∧
    (open_calendar "f.pdf" none lenvStub (fsWrite emptyFS "f.pdf" [37])).opened
      = ["file:///abs/f.pdf"] ∧
    (open_calendar "f.pdf" none lenvStub (fsWrite emptyFS "f.pdf" [37])).result
      = .ok () := by
  have h3 := C8_launcher_policy.2.2 "f.pdf" none lenvStub
    (fsWrite emptyFS "f.pdf" [37]) [37] "firefox" (by decide) rfl
  exact ⟨C8_launcher_policy.1 "f.pdf" none lenvStub emptyFS rfl, h3.1, h3.2.1 rfl⟩

/-- C9: a page whose sole matching anchor lacks an `href` attribute
makes the Fetcher fail with the unhandled `KeyError` — a condition
outside the spec's error taxonomy. -/
theorem C9_missing_href_keyerror :
    (get_calendar "d" (some "u") false ⟨2024, 5⟩ env9 emptyFS).result
      = .error .keyError ∧
    FetchErr.keyError ≠ .noPageURL ∧
    (∀ v s, FetchErr.keyError ≠ .pageFetchFailed v s) ∧
    FetchErr.keyError ≠ .noDownloadLinks ∧
    FetchErr.keyError ≠ .multipleDownloadLinks ∧
    (∀ v s, FetchErr.keyError ≠ .pdfFetchFailed v s) := by
  refine ⟨?_, by simp, by simp, by simp, by simp, by simp⟩
  rw [@gc_eq_keyerr "d" (some "u") false ⟨2024, 5⟩ env9 emptyFS rfl
    (by decide) rfl rfl]

/-- Witness for C9 at concrete constructor arguments. -/
theorem C9_missing_href_keyerror_witness :
    (get_calendar "d" (some "u") false ⟨2024, 5⟩ env9 emptyFS).result
      = .error .keyError ∧
    FetchErr.keyError ≠ .pageFetchFailed "u" 204 :=
  ⟨C9_missing_href_keyerror.1, C9_missing_href_keyerror.2.2.1 "u" 204⟩
